import Mathlib

/-!
# Verification of the ContextDiff semantic diff engine

Shallow embedding of the core of the ContextDiff repository
(`app/services/diff_engine.py`, `app/services/cache.py`,
`backend/app/models.py`, `backend/app/config.py`) and proofs about it.

Python strings are modelled as `List Char`; Python slicing, `str.find`,
`str.split`/`str.join` on the two-character separator, lexicographic string
comparison and integer arithmetic are modelled explicitly below with Python
semantics.  The external collaborators (the OpenAI oracle, `difflib`'s
similarity ratio, and the current cache contents) are inputs of the model:
the engine only branches on them, it never computes them itself.
-/

/-- Python `str`, modelled as a list of characters. -/
abbrev Str := List Char

/-- Python slice index normalisation: a negative index counts from the end,
and indices are clamped to `[0, len]` (semantics of `s[a:b]` for int `a`, `b`). -/
def pyIndex (len : Nat) (i : Int) : Nat :=
  if i < 0 then (max 0 ((len : Int) + i)).toNat else min i.toNat len

/-- Python `s[a:b]` for integer bounds. -/
def pySlice (s : Str) (a b : Int) : Str :=
  (s.take (pyIndex s.length b)).drop (pyIndex s.length a)

/-- Python `haystack.find(needle)`: index of the leftmost occurrence,
`none` models the `-1` "not found" result. -/
def strFind (hay needle : Str) : Option Nat :=
  if needle.isPrefixOf hay then some 0
  else
    match hay with
    | [] => none
    | _ :: t => (strFind t needle).map (· + 1)

/-- Python lexicographic `<` on strings (code-point order). -/
def pyStrLt : Str → Str → Bool
  | _, [] => false
  | [], _ :: _ => true
  | a :: as, b :: bs => if a = b then pyStrLt as bs else decide (a < b)

/-- Python `str.lower()` (restricted to the characters the engine compares;
only ASCII letters occur in the severity vocabulary). -/
def pyLower (s : Str) : Str := s.map Char.toLower

/-- Python whitespace predicate used by `str.strip()`. -/
def isPySpace (c : Char) : Bool :=
  c = ' ' ∨ c = '\t' ∨ c = '\n' ∨ c = '\r' ∨ c = '\x0b' ∨ c = '\x0c'

/-- Python `str.strip()`. -/
def pyStrip (s : Str) : Str :=
  ((s.dropWhile isPySpace).reverse.dropWhile isPySpace).reverse

/-! ## Data model (`backend/app/models.py`) -/

/-- `ChangeSeverity` (str enum: `info`, `warning`, `critical`). -/
inductive ChangeSeverity where
  | info
  | warning
  | critical
deriving DecidableEq, Repr

/-- `SemanticChangeLevel` (str enum with the five values below). -/
inductive SemanticChangeLevel where
  | NONE
  | MINOR
  | MODERATE
  | CRITICAL
  | FATAL
deriving DecidableEq, Repr

/-- The `.value` string of a `SemanticChangeLevel` member: the merge loop in
`_merge_chunk_results` compares these *strings* with Python `>`. -/
def SemanticChangeLevel.value : SemanticChangeLevel → Str
  | .NONE => ("NONE").data
  | .MINOR => ("MINOR").data
  | .MODERATE => ("MODERATE").data
  | .CRITICAL => ("CRITICAL").data
  | .FATAL => ("FATAL").data

/-- The ordinal rank of a level on the 5-level scale (spec §4.3: ordinal
comparison NONE < MINOR < MODERATE < CRITICAL < FATAL). -/
def SemanticChangeLevel.rank : SemanticChangeLevel → Nat
  | .NONE => 0
  | .MINOR => 1
  | .MODERATE => 2
  | .CRITICAL => 3
  | .FATAL => 4

/-- A validated `TextSpan` (pydantic model): offsets are non-negative ints
with `end ≥ start` once validation has passed; the merge step later adds
chunk offsets to them, so they are kept as `Int` here.  The pydantic field
`end` is called `stop` because `end` is a Lean keyword. -/
structure TextSpan where
  text : Str
  start : Int
  stop : Int
  context_before : Str := []
  context_after : Str := []
deriving DecidableEq, Repr

/-- A validated `ChangeItem`.  The fields `id`, `type`, `description` and
`reasoning` are omitted from the model: no claimed property depends on them
(they are assumed well-formed in the oracle responses considered here). -/
structure ChangeItem where
  severity : ChangeSeverity
  original_span : TextSpan
  generated_span : TextSpan
deriving DecidableEq, Repr

/-- A validated `DiffSummary`. `risk_score` is an int in `[0, 100]`
(pydantic `ge=0, le=100`), modelled as `Nat` after validation. -/
structure DiffSummary where
  is_safe : Bool
  risk_score : Nat
  semantic_change_level : SemanticChangeLevel
deriving DecidableEq, Repr

/-- A validated `DiffResponse`. -/
structure DiffResponse where
  summary : DiffSummary
  changes : List ChangeItem := []
deriving DecidableEq, Repr

/-! ### Raw (pre-validation) oracle JSON, as dictionaries

`_validate_and_fix_spans` operates on the raw parsed JSON dict *before*
pydantic validation, so spans are modelled twice: raw spans may miss their
offsets (`dict.get` returning `None`), raw changes may miss their spans. -/

/-- A raw span dict: `span.get("text", "")`, `span.get("start")`,
`span.get("end")`, `span.get("context_before", "")`, `span.get("context_after", "")`. -/
structure RawSpan where
  text : Str := []
  start : Option Int := none
  stop : Option Int := none
  context_before : Str := []
  context_after : Str := []
deriving DecidableEq, Repr

/-- A raw change dict (fields relevant to the claims; `severity` is the raw
oracle string before the synonym-table normalisation in `normalize_fields`). -/
structure RawChange where
  severity : Option Str := none
  original_span : Option RawSpan := none
  generated_span : Option RawSpan := none
deriving DecidableEq, Repr

/-- The raw summary dict.  `risk_score` is an arbitrary int before the
pydantic `ge=0, le=100` check. -/
structure RawSummary where
  is_safe : Bool
  risk_score : Int
  semantic_change_level : SemanticChangeLevel
deriving DecidableEq, Repr

/-- The raw parsed JSON document returned by the oracle (`"summary"` or
`"changes"` keys may be absent). -/
structure RawResponse where
  summary : Option RawSummary := none
  changes : Option (List RawChange) := none
deriving DecidableEq, Repr

/-! ## Cache key derivation (`app/services/cache.py`, `ResponseCache._generate_key`)

`_generate_key` computes `sha256(f"{original}|{generated}|{sensitivity}")` and
returns its hex digest.  SHA-256 is a fixed deterministic function, so two
triples derive the same key exactly when their concatenated input strings are
equal — up to finding a SHA-256 collision for genuinely different inputs.
The model therefore reasons about the pre-image string. -/

/-- The string hashed by `_generate_key`: `f"{original_text}|{generated_text}|{sensitivity}"`. -/
def generateKeyInput (original_text generated_text sensitivity : Str) : Str :=
  original_text ++ '|' :: generated_text ++ '|' :: sensitivity

/-! ## Paragraph-aware splitting (`DiffEngine._split_into_chunks`) -/

/-- Prepend a character to the first element of a paragraph list
(helper for `splitParas`). -/
def consHead (c : Char) : List Str → List Str
  | [] => [[c]]
  | p :: ps => (c :: p) :: ps

/-- Python `text.split("\n\n")`: non-overlapping leftmost splitting on the
two-character separator. -/
def splitParas : Str → List Str
  | [] => [[]]
  | '\n' :: '\n' :: rest => [] :: splitParas rest
  | c :: rest => consHead c (splitParas rest)

/-- Python `"\n\n".join(paras)`. -/
def joinParas : List Str → Str
  | [] => []
  | [p] => p
  | p :: ps => p ++ '\n' :: '\n' :: joinParas ps

/-- One iteration of the paragraph-accumulation loop in `_split_into_chunks`
(state: `(chunks, current_chunk, current_length)`). -/
def chunkStep (maxChunkSize : Nat) (st : List Str × List Str × Nat) (para : Str) :
    List Str × List Str × Nat :=
  if st.2.2 + para.length > maxChunkSize ∧ st.2.1 ≠ [] then
    (st.1 ++ [joinParas st.2.1], [para], para.length)
  else
    (st.1, st.2.1 ++ [para], st.2.2 + para.length + 2)

/-- `DiffEngine._split_into_chunks(text, max_chunk_size)`.  The Python default
for `max_chunk_size` is 3000 and every call site uses it; the size is kept as
an explicit argument here. -/
def splitIntoChunks (text : Str) (maxChunkSize : Nat) : List Str :=
  if text.length ≤ maxChunkSize then [text]
  else
    let acc := (splitParas text).foldl (chunkStep maxChunkSize) ([], [], 0)
    if acc.2.1 ≠ [] then acc.1 ++ [joinParas acc.2.1] else acc.1

/-! ## Span reconciliation (`DiffEngine._validate_single_span`,
`DiffEngine._validate_and_fix_spans`) -/

/-- `DiffEngine._validate_single_span(span, source_text)`.

Returns `(is_valid, was_corrected, updated span)`; the Python function
returns the pair and mutates the span dict in place exactly when it reports
a correction, so returning the updated span is equivalent.

Notes kept from the source: the `try/except IndexError` around phase 1 is
dead code (Python slicing of a `str` by ints never raises `IndexError`);
phase 2 runs only when at least one context window is non-empty
(`if context_before or context_after`); phase 3 searches the original claimed
window even if phase 2 ran and failed; phase 4 is the global fallback. -/
def validateSingleSpan (span : RawSpan) (source : Str) : Bool × Bool × RawSpan :=
  if span.text = [] ∨ span.start = none ∨ span.stop = none then
    (true, false, span)
  else
    match span.start, span.stop with
    | some start, some stop =>
      if pySlice source start stop = span.text then
        (true, false, span)
      else
        match (if span.context_before ≠ [] ∨ span.context_after ≠ [] then
                 strFind source (span.context_before ++ span.text ++ span.context_after)
               else none) with
        | some foundIndex =>
          (true, true,
            { span with
              start := some ((foundIndex + span.context_before.length : Nat) : Int),
              stop := some ((foundIndex + span.context_before.length + span.text.length : Nat) : Int) })
        | none =>
          match strFind (pySlice source (max 0 (start - 50)) (min (source.length : Int) (stop + 50))) span.text with
          | some localIndex =>
            (true, true,
              { span with
                start := some (max 0 (start - 50) + (localIndex : Int)),
                stop := some (max 0 (start - 50) + (localIndex : Int) + (span.text.length : Int)) })
          | none =>
            match strFind source span.text with
            | some globalIndex =>
              (true, true,
                { span with
                  start := some ((globalIndex : Nat) : Int),
                  stop := some ((globalIndex + span.text.length : Nat) : Int) })
            | none => (false, false, span)
    | _, _ => (true, false, span)

/-- The per-change body of the loop in `_validate_and_fix_spans`: validate the
original-side span (if the key is present and truthy), then — only if still
valid — the generated-side span; `none` models the change being dropped. -/
def fixChange (c : RawChange) (originalText generatedText : Str) : Option RawChange :=
  match c.original_span with
  | some so =>
    let r := validateSingleSpan so originalText
    if r.1 then
      match c.generated_span with
      | some sg =>
        let r2 := validateSingleSpan sg generatedText
        if r2.1 then
          some { c with original_span := some r.2.2, generated_span := some r2.2.2 }
        else none
      | none => some { c with original_span := some r.2.2 }
    else none
  | none =>
    match c.generated_span with
    | some sg =>
      let r2 := validateSingleSpan sg generatedText
      if r2.1 then some { c with generated_span := some r2.2.2 } else none
    | none => some c

/-- `DiffEngine._validate_and_fix_spans(response_data, original_text, generated_text)`. -/
def validateAndFixSpans (rd : RawResponse) (originalText generatedText : Str) : RawResponse :=
  match rd.changes with
  | none => rd
  | some cs => { rd with changes := some (cs.filterMap (fun c => fixChange c originalText generatedText)) }

/-! ## Response validation (`ChangeItem.normalize_fields` + pydantic,
`DiffEngine._validate_and_build_response`) -/

/-- The severity synonym table of `ChangeItem.normalize_fields` (case-insensitive
after `lower().strip()`, unrecognised values default to `warning`). -/
def severityMap (raw : Str) : ChangeSeverity :=
  let k := pyStrip (pyLower raw)
  if k = ("minor").data ∨ k = ("low").data ∨ k = ("none").data ∨ k = ("info").data then
    ChangeSeverity.info
  else if k = ("moderate").data ∨ k = ("medium").data ∨ k = ("warning").data then
    ChangeSeverity.warning
  else if k = ("high").data ∨ k = ("fatal").data ∨ k = ("severe").data ∨ k = ("critical").data then
    ChangeSeverity.critical
  else
    ChangeSeverity.warning

/-- Pydantic validation of a `TextSpan`: `start`/`end` must be present ints
with `ge=0` and the validator `end_must_be_after_start` requires `end ≥ start`.
`Except.error ()` models a `ValidationError`. -/
def toTextSpan (s : RawSpan) : Except Unit TextSpan :=
  match s.start, s.stop with
  | some a, some b =>
    if 0 ≤ a ∧ 0 ≤ b ∧ a ≤ b then
      Except.ok { text := s.text, start := a, stop := b,
                  context_before := s.context_before, context_after := s.context_after }
    else Except.error ()
  | _, _ => Except.error ()

/-- Pydantic validation of a `ChangeItem` (after `normalize_fields` has mapped
the severity through the synonym table; a missing or empty severity fails the
required-field check). -/
def toChangeItem (c : RawChange) : Except Unit ChangeItem :=
  match c.severity, c.original_span, c.generated_span with
  | some sev, some so, some sg =>
    if sev = [] then Except.error ()
    else
      match toTextSpan so, toTextSpan sg with
      | Except.ok o, Except.ok g =>
        Except.ok { severity := severityMap sev, original_span := o, generated_span := g }
      | _, _ => Except.error ()
  | _, _, _ => Except.error ()

/-- `DiffResponse(**response_data)`: pydantic construction of the full
response (a missing `"changes"` key defaults to the empty list). -/
def buildResponse (rd : RawResponse) : Except Unit DiffResponse :=
  match rd.summary with
  | none => Except.error ()
  | some s =>
    if 0 ≤ s.risk_score ∧ s.risk_score ≤ 100 then
      match (rd.changes.getD []).mapM toChangeItem with
      | Except.ok cs =>
        Except.ok { summary := { is_safe := s.is_safe, risk_score := s.risk_score.toNat,
                                 semantic_change_level := s.semantic_change_level },
                    changes := cs }
      | Except.error e => Except.error e
    else Except.error ()

/-- `DiffEngine._validate_and_build_response(response_data)`: pydantic
construction followed by the `is_safe` consistency check — when the response
has a critical change or `risk_score > 40` and still claims `is_safe=True`,
`is_safe` is forced to `False`.  (It is *only* ever forced from `True` to
`False`, never the other way.) -/
def validateAndBuildResponse (rd : RawResponse) : Except Unit DiffResponse :=
  match buildResponse rd with
  | Except.error e => Except.error e
  | Except.ok r =>
    let hasCriticalChanges := r.changes.any (fun c => c.severity = ChangeSeverity.critical)
    let highRisk := r.summary.risk_score > 40
    if (hasCriticalChanges ∨ highRisk) ∧ r.summary.is_safe then
      Except.ok { r with summary.is_safe := false }
    else Except.ok r

/-! ## Merging chunk results (`DiffEngine._merge_chunk_results`) -/

/-- Shift all four span offsets of a change by a chunk's base offset
(the loop body at lines 509-514 of `diff_engine.py`). -/
def adjustChange (off : Nat) (c : ChangeItem) : ChangeItem :=
  { c with
    original_span := { c.original_span with
                       start := c.original_span.start + (off : Int),
                       stop := c.original_span.stop + (off : Int) },
    generated_span := { c.generated_span with
                        start := c.generated_span.start + (off : Int),
                        stop := c.generated_span.stop + (off : Int) } }

/-- The cumulative offsets after the first (`offsets = [0]`); built over
`original_chunks[:-1]`, each entry adds the previous chunk's length plus 2
for the consumed `"\n\n"` separator. -/
def computeOffsetsAux (chunks : List Str) (acc : Nat) : List Nat :=
  match chunks with
  | [] => []
  | c :: rest => (acc + c.length + 2) :: computeOffsetsAux rest (acc + c.length + 2)

/-- The `offsets` list of `_merge_chunk_results`. -/
def computeOffsets (originalChunks : List Str) : List Nat :=
  0 :: computeOffsetsAux originalChunks.dropLast 0

/-- One iteration of the merge loop over `enumerate(chunk_results)`:
an `Exception` entry is skipped; a response entry appends its offset-adjusted
changes, adds its risk score, and updates the running maximum change level by
comparing the enum `.value` *strings* with Python `>`. -/
def mergeStep (offsets : List Nat) (st : List ChangeItem × Nat × SemanticChangeLevel)
    (p : Nat × Except String DiffResponse) : List ChangeItem × Nat × SemanticChangeLevel :=
  match p.2 with
  | Except.error _ => st
  | Except.ok r =>
    let off := offsets.getD p.1 0
    (st.1 ++ r.changes.map (adjustChange off),
     st.2.1 + r.summary.risk_score,
     if pyStrLt st.2.2.value r.summary.semantic_change_level.value then
       r.summary.semantic_change_level
     else st.2.2)

/-- `DiffEngine._merge_chunk_results(chunk_results, original_chunks)`. -/
def mergeChunkResults (chunkResults : List (Except String DiffResponse))
    (originalChunks : List Str) : DiffResponse :=
  let offsets := computeOffsets originalChunks
  let acc := chunkResults.enum.foldl (mergeStep offsets) ([], 0, SemanticChangeLevel.NONE)
  let validChunks := (chunkResults.filter (fun r => match r with
    | Except.ok _ => true
    | Except.error _ => false)).length
  let avgRiskScore := if validChunks > 0 then acc.2.1 / validChunks else 0
  let hasCritical := acc.1.any (fun c => c.severity = ChangeSeverity.critical)
  { summary := { is_safe := decide (avgRiskScore ≤ 40) && !hasCritical,
                 risk_score := min 100 avgRiskScore,
                 semantic_change_level := acc.2.2 },
    changes := acc.1 }

/-! ## The orchestrator (`DiffEngine.analyze_diff` and helpers)

The oracle (OpenAI), `difflib`'s similarity ratio and the cache contents are
external to the engine: they are supplied as an environment.  `OracleOutcome`
is the observable outcome of one oracle interaction *after* the bounded-retry
policy of `_call_llm_with_retry` (3 attempts, exponential backoff, retrying
only `APITimeoutError`/`RateLimitError`/`APIError`). -/

/-- Outcome of one oracle interaction on a given chunk or request. -/
inductive OracleOutcome where
  /-- `RateLimitError` still raised after the retries are exhausted. -/
  | rateLimited
  /-- `APITimeoutError` still raised after the retries are exhausted. -/
  | timedOut
  /-- `APIError` still raised after the retries are exhausted. -/
  | apiErr
  /-- another `OpenAIError` (not retried). -/
  | clientErr
  /-- the call succeeded but `response.choices[0].message.content` was empty. -/
  | emptyContent
  /-- the call succeeded but the content was not valid JSON (`json.loads` raises). -/
  | malformedJson
  /-- the call succeeded and the content parsed into the given JSON document. -/
  | parsed (raw : RawResponse)
deriving DecidableEq, Repr

/-- The exception classes that can escape the `try` block of `analyze_diff`
(lines 173-220). -/
inductive TryExc where
  | rateLimitError
  | apiTimeoutError
  | apiError
  | openAIError
  | llmResponseError
deriving DecidableEq, Repr

/-- The two error classes `analyze_diff` is documented to raise. -/
inductive EngineError where
  | llmAPIError
  | llmResponseError
deriving DecidableEq, Repr

/-- The `try` block of the single-call path of `analyze_diff` (lines 173-220):
extract the content, parse JSON, fix spans, validate and build.
`LLMResponseError` is raised for empty content (line 185), malformed JSON
(line 194) and validation failures (`_validate_and_build_response`,
lines 756-761). -/
def tryBlock (originalText generatedText : Str) (o : OracleOutcome) :
    Except TryExc DiffResponse :=
  match o with
  | .rateLimited => Except.error TryExc.rateLimitError
  | .timedOut => Except.error TryExc.apiTimeoutError
  | .apiErr => Except.error TryExc.apiError
  | .clientErr => Except.error TryExc.openAIError
  | .emptyContent => Except.error TryExc.llmResponseError
  | .malformedJson => Except.error TryExc.llmResponseError
  | .parsed raw =>
    match validateAndBuildResponse (validateAndFixSpans raw originalText generatedText) with
    | Except.error _ => Except.error TryExc.llmResponseError
    | Except.ok r => Except.ok r

/-- The `except` handler chain of `analyze_diff` (lines 222-240), applied to
whatever exception escapes the `try` block.  There is no handler for
`LLMResponseError` before the final `except Exception` (line 238), so an
`LLMResponseError` is also converted to `LLMAPIError("Unexpected error: ...")`. -/
def exceptChain : TryExc → EngineError
  | .rateLimitError => EngineError.llmAPIError
  | .apiTimeoutError => EngineError.llmAPIError
  | .apiError => EngineError.llmAPIError
  | .openAIError => EngineError.llmAPIError
  | .llmResponseError => EngineError.llmAPIError

/-- The single-call analysis path of `analyze_diff` as observed by the caller:
the `try` block with its handler chain. -/
def singleCallAnalysis (originalText generatedText : Str) (o : OracleOutcome) :
    Except EngineError DiffResponse :=
  (tryBlock originalText generatedText o).mapError exceptChain

/-- The environment of one `analyze_diff` invocation: what the cache lookups
return, what `difflib.SequenceMatcher(None, a, b).ratio()` evaluates to for
the two request texts, and how the oracle answers.  (`ratio` is a plain
rational standing for the float; `chunkCached`/`chunkOracle` are indexed by
the chunk index `i` of `_analyze_single_chunk`.) -/
structure Env where
  cached : Option DiffResponse
  ratio : Rat
  oracle : OracleOutcome
  chunkCached : Nat → Option DiffResponse
  chunkOracle : Nat → OracleOutcome

/-- `settings.SHORT_CIRCUIT_THRESHOLD` (config default `0.96`). -/
def SHORT_CIRCUIT_THRESHOLD : Rat := 96 / 100

/-- `CHUNK_THRESHOLD = 4000` (local constant in `analyze_diff`). -/
def CHUNK_THRESHOLD : Nat := 4000

/-- The zero-risk, no-changes response used by the similarity short-circuit
and as the substitute for a failed chunk. -/
def zeroResponse : DiffResponse :=
  { summary := { is_safe := true, risk_score := 0,
                 semantic_change_level := SemanticChangeLevel.NONE },
    changes := [] }

/-- `DiffEngine._analyze_single_chunk(chunk_request, chunk_index, model)`:
cache lookup, then the oracle call with the same parse/fix/validate pipeline
as the single-call path — but wrapped in `except Exception` (line 464) which
converts *any* failure into the neutral `zeroResponse`. -/
def analyzeSingleChunk (env : Env) (chunkIndex : Nat)
    (origChunk genChunk : Str) : DiffResponse :=
  match env.chunkCached chunkIndex with
  | some r => r
  | none =>
    match env.chunkOracle chunkIndex with
    | .parsed raw =>
      match validateAndBuildResponse (validateAndFixSpans raw origChunk genChunk) with
      | Except.ok r => r
      | Except.error _ => zeroResponse
    | _ => zeroResponse

/-- The task list built by `_analyze_with_chunking` (lines 310-335): split
both texts (Python default `max_chunk_size=3000`), pad the shorter chunk list
with empty strings, and keep one `(chunk_index, original_chunk, generated_chunk)`
task per pair that is not empty/empty. -/
def chunkTasks (originalText generatedText : Str) : List (Nat × Str × Str) :=
  let originalChunks := splitIntoChunks originalText 3000
  let generatedChunks := splitIntoChunks generatedText 3000
  let maxChunks := max originalChunks.length generatedChunks.length
  let paddedOrig := originalChunks ++ List.replicate (maxChunks - originalChunks.length) []
  let paddedGen := generatedChunks ++ List.replicate (maxChunks - generatedChunks.length) []
  (paddedOrig.zip paddedGen).enum.filterMap (fun p =>
    if p.2.1 = [] ∧ p.2.2 = [] then none else some (p.1, p.2.1, p.2.2))

/-- The padded `original_chunks` list that `_analyze_with_chunking` hands to
`_merge_chunk_results`. -/
def paddedOriginalChunks (originalText generatedText : Str) : List Str :=
  let originalChunks := splitIntoChunks originalText 3000
  let generatedChunks := splitIntoChunks generatedText 3000
  originalChunks ++
    List.replicate (max originalChunks.length generatedChunks.length - originalChunks.length) []

/-- `DiffEngine._analyze_with_chunking(request, model)`.  Returns the merged
response together with the number of oracle calls dispatched (the tasks whose
chunk-level cache lookup missed).  Since `_analyze_single_chunk` never raises,
`asyncio.gather(..., return_exceptions=True)` yields only plain responses, so
every entry handed to the merge is an `Except.ok`. -/
def analyzeWithChunking (env : Env) (originalText generatedText : Str) :
    DiffResponse × Nat :=
  let tasks := chunkTasks originalText generatedText
  let results := tasks.map (fun t =>
    (Except.ok (analyzeSingleChunk env t.1 t.2.1 t.2.2) : Except String DiffResponse))
  (mergeChunkResults results (paddedOriginalChunks originalText generatedText),
   (tasks.filter (fun t => (env.chunkCached t.1).isNone)).length)

/-- `DiffEngine.analyze_diff(request)` as observed by the caller, together
with the number of oracle interactions performed: cache lookup first, then
the similarity short-circuit, then the size check routing to the chunked or
the single-call path.  (Prompt construction, model selection and the
`cache.set` writes do not influence any claimed property and are omitted.) -/
def analyzeDiff (env : Env) (originalText generatedText : Str) :
    Except EngineError DiffResponse × Nat :=
  match env.cached with
  | some r => (Except.ok r, 0)
  | none =>
    if SHORT_CIRCUIT_THRESHOLD < env.ratio then
      (Except.ok zeroResponse, 0)
    else if CHUNK_THRESHOLD < originalText.length ∨ CHUNK_THRESHOLD < generatedText.length then
      (Except.ok (analyzeWithChunking env originalText generatedText).1,
       (analyzeWithChunking env originalText generatedText).2)
    else
      (singleCallAnalysis originalText generatedText env.oracle, 1)

/-! ## Spec-side definitions

`reconcileSpec` is written from the spec's words (§4.2 "Algorithm, strictly
ordered, stop at first success") to be compared with `validateSingleSpan`,
which is translated from the source.  `chunkBase` is the spec's per-chunk
offset base formula (§4.3). -/

/-- Spec §4.2 step 1: exact match — `source[start:end] == text`, accept as-is. -/
def phase1Exact (s : RawSpan) (source : Str) : Option RawSpan :=
  match s.start, s.stop with
  | some a, some b => if pySlice source a b = s.text then some s else none
  | _, _ => none

/-- Spec §4.2 step 2: context fingerprint — if `context_before` or
`context_after` is non-empty, search for `context_before + text + context_after`
and recompute the offsets from the first occurrence. -/
def phase2Fingerprint (s : RawSpan) (source : Str) : Option RawSpan :=
  if s.context_before ≠ [] ∨ s.context_after ≠ [] then
    (strFind source (s.context_before ++ s.text ++ s.context_after)).map (fun i =>
      { s with
        start := some ((i + s.context_before.length : Nat) : Int),
        stop := some ((i + s.context_before.length + s.text.length : Nat) : Int) })
  else none

/-- Spec §4.2 step 3: proximity search — search for `text` within ±50
characters of the claimed position and recompute the offsets. -/
def phase3Proximity (s : RawSpan) (source : Str) : Option RawSpan :=
  match s.start, s.stop with
  | some a, some b =>
    (strFind (pySlice source (max 0 (a - 50)) (min (source.length : Int) (b + 50))) s.text).map
      (fun j =>
        { s with
          start := some (max 0 (a - 50) + (j : Int)),
          stop := some (max 0 (a - 50) + (j : Int) + (s.text.length : Int)) })
  | _, _ => none

/-- Spec §4.2 step 4: global fallback — first occurrence of `text` anywhere. -/
def phase4Global (s : RawSpan) (source : Str) : Option RawSpan :=
  (strFind source s.text).map (fun g =>
    { s with
      start := some ((g : Nat) : Int),
      stop := some ((g + s.text.length : Nat) : Int) })

/-- The strictly ordered first-success chain of spec §4.2 (steps 1-4);
`none` is step 5, the span is unverifiable (a hallucination). -/
def reconcileSpec (s : RawSpan) (source : Str) : Option RawSpan :=
  (phase1Exact s source).orElse (fun _ =>
    (phase2Fingerprint s source).orElse (fun _ =>
      (phase3Proximity s source).orElse (fun _ => phase4Global s source)))

/-- The verdict of `validateSingleSpan` repackaged as `some` accepted span /
`none` rejected, for comparison with `reconcileSpec`. -/
def vssResult (s : RawSpan) (source : Str) : Option RawSpan :=
  if (validateSingleSpan s source).1 then some (validateSingleSpan s source).2.2 else none

/-- A claimed span with non-empty text and present start/end offsets
(the scope of the reconciliation claim; empty/offset-less spans take the
deliberate leniency path instead). -/
def wellFormedSpan (s : RawSpan) : Prop :=
  s.text ≠ [] ∧ s.start ≠ none ∧ s.stop ≠ none

/-- Spec §4.3: the global character offset base of chunk `i` — the cumulative
sum of the lengths of all prior original-text chunks plus 2 characters per
chunk boundary. -/
def chunkBase (originalChunks : List Str) (i : Nat) : Nat :=
  ((originalChunks.take i).map List.length).sum + 2 * i

/-! ## Concrete instances used in counterexamples and witnesses -/

/-- An oracle response whose summary is low-risk but self-reports
`is_safe=false`; the engine passes that flag through unchanged. -/
def c1raw : RawResponse :=
  { summary := some { is_safe := false, risk_score := 0,
                      semantic_change_level := SemanticChangeLevel.NONE },
    changes := some [] }

/-- What the engine returns for `c1raw`. -/
def c1resp : DiffResponse :=
  { summary := { is_safe := false, risk_score := 0,
                 semantic_change_level := SemanticChangeLevel.NONE },
    changes := [] }

/-- Environment for the `c1raw` run: cache miss, dissimilar short texts
(`difflib` ratio of `"ab"` vs `"cd"` is `0.0`), oracle answers `c1raw`. -/
def c1env : Env :=
  { cached := none, ratio := 0, oracle := OracleOutcome.parsed c1raw,
    chunkCached := fun _ => none, chunkOracle := fun _ => OracleOutcome.malformedJson }

/-- A well-behaved low-risk oracle response claiming `is_safe=true`. -/
def c1wraw : RawResponse :=
  { summary := some { is_safe := true, risk_score := 10,
                      semantic_change_level := SemanticChangeLevel.MINOR },
    changes := some [] }

/-- What the engine returns for `c1wraw`. -/
def c1wresp : DiffResponse :=
  { summary := { is_safe := true, risk_score := 10,
                 semantic_change_level := SemanticChangeLevel.MINOR },
    changes := [] }

/-- Environment for the `c1wraw` run. -/
def c1wenv : Env :=
  { cached := none, ratio := 0, oracle := OracleOutcome.parsed c1wraw,
    chunkCached := fun _ => none, chunkOracle := fun _ => OracleOutcome.malformedJson }

/-- The spec's own consistency-enforcement example: the oracle reports
`risk_score=90` together with `is_safe=true`. -/
def c2raw : RawResponse :=
  { summary := some { is_safe := true, risk_score := 90,
                      semantic_change_level := SemanticChangeLevel.MODERATE },
    changes := some [] }

/-- What the single-call path produces for `c2raw`: `is_safe` forced to false. -/
def c2resp : DiffResponse :=
  { summary := { is_safe := false, risk_score := 90,
                 semantic_change_level := SemanticChangeLevel.MODERATE },
    changes := [] }

/-- A chunk verdict with level FATAL (for exercising the merge's level
tracking). -/
def fatalResp : DiffResponse :=
  { summary := { is_safe := false, risk_score := 100,
                 semantic_change_level := SemanticChangeLevel.FATAL },
    changes := [] }

/-- An oracle call outcome that is a permanent failure: the transport-level
exception survived the 3 retry attempts of `_call_llm_with_retry`. -/
def oracleFailedPermanently : OracleOutcome → Bool
  | OracleOutcome.rateLimited => true
  | OracleOutcome.timedOut => true
  | OracleOutcome.apiErr => true
  | _ => false

/-- A 2999-character paragraph of the original text. -/
def xPara : Str := List.replicate 2999 'x'

/-- A 2999-character paragraph of the generated text. -/
def yPara : Str := List.replicate 2999 'y'

/-- A 9001-character original text of three paragraphs: splits into exactly
three chunks `[xPara, xPara, xPara]`. -/
def c4orig : Str := xPara ++ '\n' :: '\n' :: (xPara ++ '\n' :: '\n' :: xPara)

/-- The matching 9001-character generated text. -/
def c4gen : Str := yPara ++ '\n' :: '\n' :: (yPara ++ '\n' :: '\n' :: yPara)

/-- An oracle chunk verdict with risk 60 and no changes. -/
def rawRisk60 : RawResponse :=
  { summary := some { is_safe := false, risk_score := 60,
                      semantic_change_level := SemanticChangeLevel.MODERATE },
    changes := some [] }

/-- Environment for the three-chunk comparison in which exactly the third
chunk's oracle call fails permanently (timeout after exhausted retries) and
the other two report risk 60. -/
def c4env : Env :=
  { cached := none, ratio := 0, oracle := OracleOutcome.malformedJson,
    chunkCached := fun _ => none,
    chunkOracle := fun i => if i = 2 then OracleOutcome.timedOut else OracleOutcome.parsed rawRisk60 }

/-- A non-zero cached verdict for a pair of near-identical texts.  Reachable
cache state: `_analyze_single_chunk` (lines 415-462) performs *no* similarity
short-circuit and caches whatever the oracle returned for its chunk pair
under `(chunk_orig, chunk_gen, sensitivity)`, so a later top-level request
with exactly those texts hits this entry. -/
def poisonedCached : DiffResponse :=
  { summary := { is_safe := false, risk_score := 50,
                 semantic_change_level := SemanticChangeLevel.MODERATE },
    changes := [] }

/-- Environment for a request whose texts are near-identical
(ratio 1.0 > 0.96) but whose triple already sits in the cache with the
non-zero `poisonedCached` verdict. -/
def c8env : Env :=
  { cached := some poisonedCached, ratio := 1, oracle := OracleOutcome.malformedJson,
    chunkCached := fun _ => none, chunkOracle := fun _ => OracleOutcome.malformedJson }

/-- Environment for a clean short-circuit run: cache miss, identical texts
(ratio 1.0). -/
def c8wenv : Env :=
  { cached := none, ratio := 1, oracle := OracleOutcome.malformedJson,
    chunkCached := fun _ => none, chunkOracle := fun _ => OracleOutcome.malformedJson }

/-- A claimed span whose offsets are slightly off: `"b"` claimed at `[0:1)`
in the source `"ab"` (exact match fails, proximity search resolves it). -/
def c7span : RawSpan := { text := ['b'], start := some 0, stop := some 1 }

/-- The source text for `c7span`. -/
def c7src : Str := ('a') :: ('b') :: []

/-- A 4003-character original paragraph. -/
def x4003 : Str := List.replicate 4003 'x'

/-- A 4003-character generated paragraph. -/
def y4003 : Str := List.replicate 4003 'y'

/-- A 4005-character original text beginning with a paragraph separator:
`_split_into_chunks` produces `["", x4003]`, an *empty chunk at index 0*. -/
def c9orig : Str := '\n' :: '\n' :: x4003

/-- The matching generated text, producing `["", y4003]`. -/
def c9gen : Str := '\n' :: '\n' :: y4003

/-- The oracle verdict for the pair `(x4003, y4003)` (chunk index 1): one
info-severity change whose spans `"x"`/`"y"` at `[0:1)` match exactly. -/
def c9raw : RawResponse :=
  { summary := some { is_safe := true, risk_score := 10,
                      semantic_change_level := SemanticChangeLevel.MINOR },
    changes := some
      [ { severity := some (("info").data),
          original_span := some { text := ['x'], start := some 0, stop := some 1 },
          generated_span := some { text := ['y'], start := some 0, stop := some 1 } } ] }

/-- Environment for the `c9orig`/`c9gen` chunked comparison. -/
def c9env : Env :=
  { cached := none, ratio := 0, oracle := OracleOutcome.malformedJson,
    chunkCached := fun _ => none, chunkOracle := fun _ => OracleOutcome.parsed c9raw }

/-- The spec's merge-offset example chunks `["AAAA", "BBBB"]`. -/
def demoChunks : List Str := [("AAAA").data, ("BBBB").data]

/-- A change reported at chunk-local offset 1 (span `[1:2)`) by chunk 1. -/
def demoItem : ChangeItem :=
  { severity := ChangeSeverity.info,
    original_span := { text := ('B') :: [], start := 1, stop := 2 },
    generated_span := { text := ('B') :: [], start := 1, stop := 2 } }

/-- Chunk results for the merge-offset example: chunk 0 reports nothing,
chunk 1 reports `demoItem`. -/
def demoResults : List (Except String DiffResponse) :=
  [ Except.ok { summary := { is_safe := true, risk_score := 0,
                             semantic_change_level := SemanticChangeLevel.NONE },
                changes := [] },
    Except.ok { summary := { is_safe := true, risk_score := 10,
                             semantic_change_level := SemanticChangeLevel.MINOR },
                changes := [demoItem] } ]

/-- A span whose claimed offsets match exactly: `"a"` at `[0:1)` in `"ab"`. -/
def c7exactSpan : RawSpan := { text := ['a'], start := some 0, stop := some 1 }

/-- A hallucinated span: `"z"` does not occur in `"ab"` at all. -/
def c7badSpan : RawSpan := { text := ['z'], start := some 0, stop := some 1 }

/-- A change whose original-side span is the hallucinated `c7badSpan`. -/
def c7dropChange : RawChange :=
  { severity := some (("info").data),
    original_span := some c7badSpan, generated_span := some c7exactSpan }

/-- A change whose generated-side span is the hallucinated `c7badSpan`. -/
def c7dropChangeGen : RawChange :=
  { severity := some (("info").data),
    original_span := some c7exactSpan, generated_span := some c7badSpan }

/-- The original-side span of the `c9raw` change. -/
def c9span_x : RawSpan := { text := ['x'], start := some 0, stop := some 1 }

/-- The generated-side span of the `c9raw` change. -/
def c9span_y : RawSpan := { text := ['y'], start := some 0, stop := some 1 }

/-- The change reported by the oracle in `c9raw`. -/
def c9change : RawChange :=
  { severity := some (("info").data),
    original_span := some c9span_x, generated_span := some c9span_y }

/-- The validated chunk response built from `c9raw`. -/
def c9chunkResp : DiffResponse :=
  { summary := { is_safe := true, risk_score := 10,
                 semantic_change_level := SemanticChangeLevel.MINOR },
    changes := [ { severity := ChangeSeverity.info,
                   original_span := { text := ['x'], start := 0, stop := 1 },
                   generated_span := { text := ['y'], start := 0, stop := 1 } } ] }

/-- The validated response built from `rawRisk60`. -/
def riskResp60 : DiffResponse :=
  { summary := { is_safe := false, risk_score := 60,
                 semantic_change_level := SemanticChangeLevel.MODERATE },
    changes := [] }

/- Decidable equality for `Except`, so concrete engine runs can be settled
by `decide`. -/
deriving instance DecidableEq for Except

/-! ## Theorems -/

/-- **C5 counterexample.** The claim says the derived keys differ for *every*
pair of distinct triples (up to negligible hash-collision probability).  But
the `"|"`-delimited concatenation is not injective across components: the
distinct triples `("x", "y|z", "low")` and `("x|y", "z", "low")` produce the
*identical* hash input, so `_generate_key` certainly derives the same
SHA-256 key for both. -/
theorem c5_counterexample :
    generateKeyInput (("x").data) (("y|z").data) (("low").data)
      = generateKeyInput (("x|y").data) (("z").data) (("low").data)
    ∧ ((("x").data, ("y|z").data, ("low").data) : Str × Str × Str)
      ≠ ((("x|y").data, ("z").data, ("low").data) : Str × Str × Str) := by
  constructor
  · rfl
  · decide

/-- **C5 (amended).** Key derivation is a deterministic function of the
hashed input string `original || "|" || generated || "|" || sensitivity`;
changing exactly one component of the triple while the other two stay fixed
always changes that input string (hence the derived SHA-256 key, barring a
hash collision).  Distinct triples in general, however, may produce the same
input string — see the counterexample — so only this componentwise
injectivity holds. -/
theorem c5_cache_key_amended :
    ∀ a a' b b' s s' : Str,
      (generateKeyInput a b s = generateKeyInput a' b s ↔ a = a')
      ∧ (generateKeyInput a b s = generateKeyInput a b' s ↔ b = b')
      ∧ (generateKeyInput a b s = generateKeyInput a b s' ↔ s = s') := by
  intro a a' b b' s s'
  refine ⟨⟨fun h => ?_, fun h => by rw [h]⟩,
          ⟨fun h => ?_, fun h => by rw [h]⟩,
          ⟨fun h => ?_, fun h => by rw [h]⟩⟩
  · simpa [generateKeyInput] using h
  · simpa [generateKeyInput] using h
  · simpa [generateKeyInput] using h

/-- Every exception escaping the `try` block of `analyze_diff` is converted
to `LLMAPIError` — the handler chain has no case that preserves
`LLMResponseError`. -/
theorem exceptChain_always_api (e : TryExc) : exceptChain e = EngineError.llmAPIError := by
  cases e <;> rfl

/-- **C6 (code bug).** The claim (and the docstring of `analyze_diff`,
lines 96-99) says a malformed or schema-invalid oracle response is surfaced
as `LLMResponseError`, distinct from `LLMAPIError`.  In the code, the
`LLMResponseError` raised inside the `try` block (lines 185/194/758) is
caught by the final `except Exception` handler (line 238) and re-raised as
`LLMAPIError("Unexpected error: ...")`: the caller receives the
transport-failure kind for malformed JSON, and no invocation of the
single-call path can ever surface `LLMResponseError`. -/
theorem c6_error_kind_code_bug :
    singleCallAnalysis (("ab").data) (("cd").data) OracleOutcome.malformedJson
      = Except.error EngineError.llmAPIError
    ∧ ∀ (originalText generatedText : Str) (o : OracleOutcome),
        singleCallAnalysis originalText generatedText o
          ≠ Except.error EngineError.llmResponseError := by
  constructor
  · rfl
  · intro originalText generatedText o h
    unfold singleCallAnalysis at h
    cases hb : tryBlock originalText generatedText o with
    | ok r => rw [hb] at h; exact Except.noConfusion h
    | error e =>
      rw [hb] at h
      simp only [Except.mapError] at h
      have := Except.error.inj h
      rw [exceptChain_always_api] at this
      exact EngineError.noConfusion this

/-- `"NONE"` is lexicographically the greatest of the five enum value
strings, so the Python comparison `level.value > "NONE"` is false for every
level. -/
theorem pyStrLt_NONE_value (l : SemanticChangeLevel) :
    pyStrLt SemanticChangeLevel.NONE.value l.value = false := by
  cases l <;> decide

/-- The merge loop never updates its running maximum away from `NONE`. -/
theorem mergeStep_foldl_level (offsets : List Nat)
    (l : List (Nat × Except String DiffResponse))
    (acc : List ChangeItem × Nat × SemanticChangeLevel)
    (h : acc.2.2 = SemanticChangeLevel.NONE) :
    (l.foldl (mergeStep offsets) acc).2.2 = SemanticChangeLevel.NONE := by
  induction l generalizing acc with
  | nil => exact h
  | cons p l ih =>
    rw [List.foldl_cons]
    apply ih
    unfold mergeStep
    cases p.2 with
    | error e => exact h
    | ok r =>
      simp only
      rw [h, pyStrLt_NONE_value]
      simp

/-- **C3 (code bug).** The claim (and spec §4.3) say the merged
`semantic_change_level` is the ordinal maximum of the per-chunk levels
(NONE < MINOR < MODERATE < CRITICAL < FATAL).  The code instead compares the
enum `.value` *strings* with Python `>` starting from `NONE` — and `"NONE"`
is lexicographically the greatest of the five value strings — so the merged
level is always `NONE`, whatever the chunks reported (e.g. a single chunk at
`FATAL` still merges to `NONE`). -/
theorem c3_merged_level_always_none :
    (∀ (chunkResults : List (Except String DiffResponse)) (originalChunks : List Str),
      (mergeChunkResults chunkResults originalChunks).summary.semantic_change_level
        = SemanticChangeLevel.NONE)
    ∧ (mergeChunkResults [Except.ok fatalResp] [("c").data]).summary.semantic_change_level
        ≠ fatalResp.summary.semantic_change_level := by
  constructor
  · intro chunkResults originalChunks
    unfold mergeChunkResults
    exact mergeStep_foldl_level _ _ _ rfl
  · decide

/-- The consistency check of `_validate_and_build_response` only ever forces
`is_safe` from true to false, so a returned response that is high-risk or has
a critical change always carries `is_safe = false`. -/
theorem validateAndBuildResponse_forces_unsafe (rd : RawResponse) (r : DiffResponse)
    (h : validateAndBuildResponse rd = Except.ok r)
    (hbad : 40 < r.summary.risk_score
      ∨ r.changes.any (fun c => c.severity = ChangeSeverity.critical) = true) :
    r.summary.is_safe = false := by
  unfold validateAndBuildResponse at h
  cases hb : buildResponse rd with
  | error e => rw [hb] at h; exact Except.noConfusion h
  | ok r0 =>
    rw [hb] at h
    simp only at h
    split at h
    · cases h with
      | refl => rfl
    · rename_i hcond
      cases h with
      | refl =>
        by_contra hsafe
        rw [Bool.not_eq_false] at hsafe
        apply hcond
        refine ⟨?_, hsafe⟩
        rcases hbad with hrisk | hcrit
        · exact Or.inr hrisk
        · exact Or.inl hcrit

/-- Capping the merged risk score at 100 does not affect the ≤40 test. -/
theorem decide_min100_le40 (a : Nat) : decide (min 100 a ≤ 40) = decide (a ≤ 40) := by
  simp only [decide_eq_decide]
  omega

/-- The merged summary of `_merge_chunk_results` always satisfies the safety
equation: `is_safe` is recomputed from the merged risk score and the presence
of a critical-severity change. -/
theorem mergeChunkResults_is_safe_eq (chunkResults : List (Except String DiffResponse))
    (originalChunks : List Str) :
    (mergeChunkResults chunkResults originalChunks).summary.is_safe
      = (decide ((mergeChunkResults chunkResults originalChunks).summary.risk_score ≤ 40)
          && !((mergeChunkResults chunkResults originalChunks).changes.any
                (fun c => c.severity = ChangeSeverity.critical))) := by
  simp only [mergeChunkResults]
  rw [decide_min100_le40]

/-- **C2 (confirmed).** On the single-call path, every oracle response that
makes it through validation and is returned with `risk_score > 40` or a
critical-severity change carries `is_safe = false`, whatever safety flag the
oracle reported; and the same holds for every merged chunked result. -/
theorem c2_consistency_enforcement :
    (∀ (raw : RawResponse) (originalText generatedText : Str) (r : DiffResponse),
      tryBlock originalText generatedText (OracleOutcome.parsed raw) = Except.ok r →
      (40 < r.summary.risk_score
        ∨ r.changes.any (fun c => c.severity = ChangeSeverity.critical) = true) →
      r.summary.is_safe = false)
    ∧ (∀ (chunkResults : List (Except String DiffResponse)) (originalChunks : List Str),
      (40 < (mergeChunkResults chunkResults originalChunks).summary.risk_score
        ∨ (mergeChunkResults chunkResults originalChunks).changes.any
            (fun c => c.severity = ChangeSeverity.critical) = true) →
      (mergeChunkResults chunkResults originalChunks).summary.is_safe = false) := by
  constructor
  · intro raw originalText generatedText r h hbad
    simp only [tryBlock] at h
    cases hv : validateAndBuildResponse (validateAndFixSpans raw originalText generatedText) with
    | error e => rw [hv] at h; exact Except.noConfusion h
    | ok r0 =>
      rw [hv] at h
      cases h with
      | refl => exact validateAndBuildResponse_forces_unsafe _ _ hv hbad
  · intro chunkResults originalChunks hbad
    rw [mergeChunkResults_is_safe_eq]
    rcases hbad with hrisk | hcrit
    · simp [Nat.not_le.mpr hrisk]
    · simp [hcrit]

/-- **C2 witness**: the spec's own example — an oracle response with
`risk_score = 90` and self-reported `is_safe = true` is returned by the
single-call path with `is_safe = false`. -/
theorem c2_consistency_enforcement_witness :
    tryBlock (("ab").data) (("cd").data) (OracleOutcome.parsed c2raw) = Except.ok c2resp
    ∧ 40 < c2resp.summary.risk_score
    ∧ c2resp.summary.is_safe = false := by
  refine ⟨rfl, by decide, ?_⟩
  exact c2_consistency_enforcement.1 c2raw (("ab").data) (("cd").data) c2resp
    rfl (Or.inl (by decide))

/-- The configured threshold is not exceeded by a similarity ratio of 0
(completely dissimilar texts). -/
theorem ratio_zero_not_gt : ¬ (SHORT_CIRCUIT_THRESHOLD < (0 : Rat)) := by
  norm_num [SHORT_CIRCUIT_THRESHOLD]

/-- A similarity ratio of 1 (identical texts) exceeds the threshold. -/
theorem ratio_one_gt : SHORT_CIRCUIT_THRESHOLD < (1 : Rat) := by
  norm_num [SHORT_CIRCUIT_THRESHOLD]

/-- A merged result that carries `is_safe = true` is neither high-risk nor
contains a critical change. -/
theorem mergeChunkResults_safe_inv (chunkResults : List (Except String DiffResponse))
    (originalChunks : List Str)
    (hs : (mergeChunkResults chunkResults originalChunks).summary.is_safe = true) :
    (mergeChunkResults chunkResults originalChunks).summary.risk_score ≤ 40
      ∧ (mergeChunkResults chunkResults originalChunks).changes.any
          (fun c => c.severity = ChangeSeverity.critical) = false := by
  have heq := mergeChunkResults_is_safe_eq chunkResults originalChunks
  rw [hs] at heq
  have hboth := (Bool.and_eq_true _ _).mp heq.symm
  refine ⟨of_decide_eq_true hboth.1, ?_⟩
  have h2 := hboth.2
  rwa [Bool.not_eq_true'] at h2

/-- A successful single-call analysis comes from a parsed oracle response
whose fixed-up document passed `_validate_and_build_response`. -/
theorem singleCallAnalysis_ok_inv (originalText generatedText : Str) (o : OracleOutcome)
    (r : DiffResponse) (h : singleCallAnalysis originalText generatedText o = Except.ok r) :
    ∃ raw, o = OracleOutcome.parsed raw
      ∧ validateAndBuildResponse (validateAndFixSpans raw originalText generatedText)
          = Except.ok r := by
  cases o <;> simp only [singleCallAnalysis, tryBlock] at h
  case' parsed raw =>
    cases hv : validateAndBuildResponse (validateAndFixSpans raw originalText generatedText) with
    | error e => rw [hv] at h; simp [Except.mapError] at h
    | ok r0 =>
      rw [hv] at h
      simp only [Except.mapError] at h
      exact ⟨raw, rfl, by rw [hv, Except.ok.inj h]⟩
  all_goals simp [Except.mapError] at h

/-- A validated response that still carries `is_safe = true` can be neither
high-risk nor contain a critical change — the forward direction of the
safety invariant on the single-call path. -/
theorem validateAndBuildResponse_safe_inv (rd : RawResponse) (r : DiffResponse)
    (h : validateAndBuildResponse rd = Except.ok r)
    (hs : r.summary.is_safe = true) :
    r.summary.risk_score ≤ 40
      ∧ r.changes.any (fun c => c.severity = ChangeSeverity.critical) = false := by
  rcases Nat.lt_or_ge 40 r.summary.risk_score with hlt | hle
  · have hforced := validateAndBuildResponse_forces_unsafe rd r h (Or.inl hlt)
    rw [hs] at hforced
    exact Bool.noConfusion hforced
  · refine ⟨hle, ?_⟩
    cases hany : r.changes.any (fun c => c.severity = ChangeSeverity.critical) with
    | false => rfl
    | true =>
      have hforced := validateAndBuildResponse_forces_unsafe rd r h (Or.inr hany)
      rw [hs] at hforced
      exact Bool.noConfusion hforced

/-- **C1 counterexample.** The claimed invariant is an equality in both
directions, so a result with `risk_score ≤ 40` and no critical change would
have to come back with `is_safe = true`.  But on the single-call path the
engine only ever forces `is_safe` from true to false: for the oracle response
`c1raw` (risk 0, no changes, self-reported `is_safe = false`) the engine
returns `is_safe = false` even though `risk_score ≤ 40` and no change is
critical — the backward direction fails.  (`c1env.ratio = 0` is the actual
`difflib` ratio of the dissimilar texts `"ab"` and `"cd"`.) -/
theorem c1_counterexample :
    analyzeDiff c1env (("ab").data) (("cd").data) = (Except.ok c1resp, 1)
    ∧ c1resp.summary.risk_score ≤ 40
    ∧ c1resp.changes.any (fun c => c.severity = ChangeSeverity.critical) = false
    ∧ c1resp.summary.is_safe = false := by
  refine ⟨?_, by decide, by decide, by decide⟩
  have h0 : c1env.cached = none := rfl
  have h1 : ¬ (SHORT_CIRCUIT_THRESHOLD < c1env.ratio) := ratio_zero_not_gt
  simp only [analyzeDiff, h0, if_neg h1]
  decide

/-- **C1 (amended).** Every `DiffResult` produced by the engine's analysis
paths satisfies the *forward* direction of the invariant: `is_safe = true`
implies `risk_score ≤ 40` and no critical-severity change (equivalently, a
high-risk or critical result is never marked safe), regardless of what the
oracle asserted.  For merged chunked results the full equality
`is_safe = (risk_score ≤ 40 AND no critical change)` does hold; on the
single-call path only the forward direction is enforced — the backward
direction fails (see the counterexample: an oracle-reported `is_safe=false`
on a low-risk response is passed through unchanged). -/
theorem c1_engine_safety_amended :
    (∀ (env : Env) (originalText generatedText : Str) (r : DiffResponse) (n : Nat),
      env.cached = none →
      analyzeDiff env originalText generatedText = (Except.ok r, n) →
      r.summary.is_safe = true →
      r.summary.risk_score ≤ 40
        ∧ r.changes.any (fun c => c.severity = ChangeSeverity.critical) = false)
    ∧ (∀ (chunkResults : List (Except String DiffResponse)) (originalChunks : List Str),
      (mergeChunkResults chunkResults originalChunks).summary.is_safe
        = (decide ((mergeChunkResults chunkResults originalChunks).summary.risk_score ≤ 40)
            && !((mergeChunkResults chunkResults originalChunks).changes.any
                  (fun c => c.severity = ChangeSeverity.critical)))) := by
  constructor
  · intro env originalText generatedText r n hc h hsafe
    unfold analyzeDiff at h
    rw [hc] at h
    dsimp only at h
    split at h
    · -- similarity short-circuit: the zero response
      rw [Prod.mk.injEq] at h
      obtain rfl := Except.ok.inj h.1
      exact ⟨by decide, by decide⟩
    · split at h
      · -- chunked path: the merged response
        rw [Prod.mk.injEq] at h
        obtain rfl := Except.ok.inj h.1
        exact mergeChunkResults_safe_inv _ _ hsafe
      · -- single-call path
        rw [Prod.mk.injEq] at h
        obtain ⟨raw, -, hv⟩ := singleCallAnalysis_ok_inv _ _ _ _ h.1
        exact validateAndBuildResponse_safe_inv _ _ hv hsafe
  · intro chunkResults originalChunks
    exact mergeChunkResults_is_safe_eq chunkResults originalChunks

/-- **C1 (amended) witness**: a concrete low-risk run through the single-call
path whose returned `is_safe = true` indeed comes with `risk_score ≤ 40` and
no critical change. -/
theorem c1_engine_safety_amended_witness :
    c1wenv.cached = none
    ∧ analyzeDiff c1wenv (("ab").data) (("cd").data) = (Except.ok c1wresp, 1)
    ∧ c1wresp.summary.is_safe = true
    ∧ (c1wresp.summary.risk_score ≤ 40
        ∧ c1wresp.changes.any (fun c => c.severity = ChangeSeverity.critical) = false) := by
  have h2 : analyzeDiff c1wenv (("ab").data) (("cd").data) = (Except.ok c1wresp, 1) := by
    have h0 : c1wenv.cached = none := rfl
    have h1 : ¬ (SHORT_CIRCUIT_THRESHOLD < c1wenv.ratio) := ratio_zero_not_gt
    simp only [analyzeDiff, h0, if_neg h1]
    decide
  refine ⟨rfl, h2, rfl, ?_⟩
  exact c1_engine_safety_amended.1 c1wenv (("ab").data) (("cd").data) c1wresp 1 rfl h2 rfl

/-- **C8 counterexample.** The cache lookup precedes the similarity
short-circuit, and the chunk-level analysis (`_analyze_single_chunk`) caches
oracle verdicts for its chunk pairs *without* any similarity check — so the
triple of a near-identical pair can already be cached with a non-zero
verdict.  A request whose ratio exceeds the threshold (here 1.0, identical
texts) then returns that cached non-zero verdict instead of the claimed
`{is_safe: true, risk_score: 0, level: NONE, changes: []}` (it still performs
zero oracle invocations). -/
theorem c8_counterexample :
    SHORT_CIRCUIT_THRESHOLD < c8env.ratio
    ∧ analyzeDiff c8env (("abc").data) (("abc").data) = (Except.ok poisonedCached, 0)
    ∧ poisonedCached ≠ zeroResponse := by
  refine ⟨ratio_one_gt, ?_, by decide⟩
  have h0 : c8env.cached = some poisonedCached := rfl
  simp only [analyzeDiff, h0]

/-- **C8 (amended).** For every comparison request whose similarity ratio
exceeds the configured threshold (default 0.96), the engine performs zero
oracle invocations; and whenever the cache lookup misses, it returns exactly
`{is_safe: true, risk_score: 0, semantic_change_level: NONE, changes: []}`.
(On a cache hit the cached payload is returned instead — see the
counterexample — still without invoking the oracle.) -/
theorem c8_short_circuit_amended :
    ∀ (env : Env) (originalText generatedText : Str),
      SHORT_CIRCUIT_THRESHOLD < env.ratio →
      (analyzeDiff env originalText generatedText).2 = 0
      ∧ (env.cached = none →
          analyzeDiff env originalText generatedText = (Except.ok zeroResponse, 0)) := by
  intro env originalText generatedText hratio
  cases hc : env.cached with
  | some r =>
    constructor
    · unfold analyzeDiff
      rw [hc]
    · intro hnone
      exact Option.noConfusion hnone
  | none =>
    have hres : analyzeDiff env originalText generatedText = (Except.ok zeroResponse, 0) := by
      unfold analyzeDiff
      rw [hc]
      dsimp only
      rw [if_pos hratio]
    exact ⟨by rw [hres], fun _ => hres⟩

/-- **C8 (amended) witness**: identical texts (ratio 1.0) on a cache miss
short-circuit to the zero response with zero oracle calls. -/
theorem c8_short_circuit_amended_witness :
    SHORT_CIRCUIT_THRESHOLD < c8wenv.ratio
    ∧ (analyzeDiff c8wenv (("abc").data) (("abc").data)).2 = 0
    ∧ (c8wenv.cached = none →
        analyzeDiff c8wenv (("abc").data) (("abc").data) = (Except.ok zeroResponse, 0)) := by
  have h := c8_short_circuit_amended c8wenv (("abc").data) (("abc").data) ratio_one_gt
  exact ⟨ratio_one_gt, h.1, h.2⟩

/-- `_validate_single_span` computes exactly the strictly ordered
first-success chain of the four reconciliation phases (for spans in the
claim's scope: non-empty text, offsets present). -/
theorem validateSingleSpan_eq_reconcileSpec (s : RawSpan) (source : Str)
    (h : wellFormedSpan s) : vssResult s source = reconcileSpec s source := by
  obtain ⟨ht, hs, he⟩ := h
  obtain ⟨a, ha⟩ := Option.ne_none_iff_exists'.mp hs
  obtain ⟨b, hb⟩ := Option.ne_none_iff_exists'.mp he
  have hcond : ¬ (s.text = [] ∨ s.start = none ∨ s.stop = none) := by
    simp [ht, ha, hb]
  unfold vssResult validateSingleSpan
  rw [if_neg hcond, ha, hb]
  unfold reconcileSpec phase1Exact phase2Fingerprint phase3Proximity phase4Global
  rw [ha, hb]
  dsimp only
  by_cases h1 : pySlice source a b = s.text
  · simp [h1, Option.orElse]
  · by_cases hg : s.context_before ≠ [] ∨ s.context_after ≠ []
    · cases hf : strFind source (s.context_before ++ s.text ++ s.context_after) with
      | some fi => simp [h1, hg, hf, Option.orElse]
      | none =>
        cases hp : strFind (pySlice source (max 0 (a - 50)) (min (source.length : Int) (b + 50))) s.text with
        | some li => simp [h1, hg, hf, hp, Option.orElse]
        | none =>
          cases hgl : strFind source s.text with
          | some gi => simp [h1, hg, hf, hp, hgl, Option.orElse]
          | none => simp [h1, hg, hf, hp, hgl, Option.orElse]
    · cases hp : strFind (pySlice source (max 0 (a - 50)) (min (source.length : Int) (b + 50))) s.text with
      | some li => simp [h1, hg, hp, Option.orElse]
      | none =>
        cases hgl : strFind source s.text with
        | some gi => simp [h1, hg, hp, hgl, Option.orElse]
        | none => simp [h1, hg, hp, hgl, Option.orElse]

/-- A well-formed span on which every reconciliation phase fails is reported
invalid by `_validate_single_span`. -/
theorem validateSingleSpan_invalid_of_reconcile_none (s : RawSpan) (source : Str)
    (hwf : wellFormedSpan s) (hrec : reconcileSpec s source = none) :
    (validateSingleSpan s source).1 = false := by
  have h := validateSingleSpan_eq_reconcileSpec s source hwf
  rw [hrec] at h
  unfold vssResult at h
  by_contra hb
  rw [Bool.not_eq_false] at hb
  rw [if_pos hb] at h
  exact Option.noConfusion h

/-- **C7 (confirmed).** For every claimed span with non-empty text and
present start/end offsets, `_validate_single_span` is exactly the strictly
ordered first-success chain of spec §4.2: exact match (accepted as-is with
offsets unchanged and no correction flag), then context fingerprint
(`context_before + text + context_after`, applicable when a context window is
present, as §4.2 step 2 defines the phase), then proximity search within ±50
characters of the claimed position, then global first occurrence; and if
every phase fails for the original-side or the generated-side span of a
change, `_validate_and_fix_spans` drops that entire `ChangeItem`. -/
theorem c7_reconciliation_phases :
    (∀ (s : RawSpan) (source : Str),
      wellFormedSpan s → vssResult s source = reconcileSpec s source)
    ∧ (∀ (s : RawSpan) (source : Str) (a b : Int),
      s.start = some a → s.stop = some b → s.text ≠ [] →
      pySlice source a b = s.text →
      validateSingleSpan s source = (true, false, s))
    ∧ (∀ (c : RawChange) (originalText generatedText : Str) (s : RawSpan),
      c.original_span = some s → wellFormedSpan s →
      reconcileSpec s originalText = none →
      fixChange c originalText generatedText = none)
    ∧ (∀ (c : RawChange) (originalText generatedText : Str) (s : RawSpan),
      c.generated_span = some s → wellFormedSpan s →
      reconcileSpec s generatedText = none →
      fixChange c originalText generatedText = none) := by
  refine ⟨validateSingleSpan_eq_reconcileSpec, ?_, ?_, ?_⟩
  · intro s source a b ha hb ht hsl
    have hcond : ¬ (s.text = [] ∨ s.start = none ∨ s.stop = none) := by
      simp [ht, ha, hb]
    unfold validateSingleSpan
    rw [if_neg hcond, ha, hb]
    dsimp only
    rw [if_pos hsl]
  · intro c originalText generatedText s hspan hwf hrec
    have hv := validateSingleSpan_invalid_of_reconcile_none s originalText hwf hrec
    unfold fixChange
    rw [hspan]
    simp [hv]
  · intro c originalText generatedText s hspan hwf hrec
    have hv := validateSingleSpan_invalid_of_reconcile_none s generatedText hwf hrec
    unfold fixChange
    cases ho : c.original_span with
    | none =>
      rw [hspan]
      simp [hv]
    | some so =>
      dsimp only
      by_cases hr1 : (validateSingleSpan so originalText).1
      · rw [hspan]
        simp [hr1, hv]
      · simp [hr1]

/-- **C7 witness**: concrete instances of all four parts — a proximity-fixed
span, an exact match accepted unchanged, and a hallucinated span dropping its
whole change from either side. -/
theorem c7_reconciliation_phases_witness :
    (wellFormedSpan c7span ∧ vssResult c7span c7src = reconcileSpec c7span c7src)
    ∧ (c7exactSpan.start = some 0 ∧ c7exactSpan.stop = some 1
        ∧ c7exactSpan.text ≠ [] ∧ pySlice c7src 0 1 = c7exactSpan.text
        ∧ validateSingleSpan c7exactSpan c7src = (true, false, c7exactSpan))
    ∧ (c7dropChange.original_span = some c7badSpan ∧ wellFormedSpan c7badSpan
        ∧ reconcileSpec c7badSpan c7src = none
        ∧ fixChange c7dropChange c7src c7src = none)
    ∧ (c7dropChangeGen.generated_span = some c7badSpan
        ∧ reconcileSpec c7badSpan c7src = none
        ∧ fixChange c7dropChangeGen c7src c7src = none) := by
  refine ⟨⟨⟨by decide, by decide, by decide⟩,
            c7_reconciliation_phases.1 c7span c7src ⟨by decide, by decide, by decide⟩⟩,
          ⟨rfl, rfl, by decide, by decide,
            c7_reconciliation_phases.2.1 c7exactSpan c7src 0 1 rfl rfl (by decide) (by decide)⟩,
          ⟨rfl, ⟨by decide, by decide, by decide⟩, by decide,
            c7_reconciliation_phases.2.2.1 c7dropChange c7src c7src c7badSpan rfl
              ⟨by decide, by decide, by decide⟩ (by decide)⟩,
          ⟨rfl, by decide,
            c7_reconciliation_phases.2.2.2 c7dropChangeGen c7src c7src c7badSpan rfl
              ⟨by decide, by decide, by decide⟩ (by decide)⟩⟩

/-- `str.split` always returns at least one element. -/
theorem splitParas_ne_nil (s : Str) : splitParas s ≠ [] := by
  induction s using splitParas.induct with
  | case1 => simp [splitParas.eq_1]
  | case2 rest ih => rw [splitParas.eq_2]; simp
  | case3 c rest h ih =>
    rw [splitParas.eq_3 c rest h]
    cases splitParas rest with
    | nil => simp [consHead]
    | cons p ps => simp [consHead]

/-- Unfolding `join` on a list with at least two elements. -/
theorem joinParas_cons (p : Str) (l : List Str) (h : l ≠ []) :
    joinParas (p :: l) = p ++ '\n' :: '\n' :: joinParas l := by
  cases l with
  | nil => exact absurd rfl h
  | cons q l' => rfl

/-- Prepending a character to the first paragraph prepends it to the join. -/
theorem joinParas_consHead (c : Char) (l : List Str) (h : l ≠ []) :
    joinParas (consHead c l) = c :: joinParas l := by
  cases l with
  | nil => exact absurd rfl h
  | cons p ps =>
    cases ps with
    | nil => rfl
    | cons q ps' => rfl

/-- Python `"\n\n".join(text.split("\n\n")) == text`. -/
theorem splitJoin (s : Str) : joinParas (splitParas s) = s := by
  induction s using splitParas.induct with
  | case1 => rfl
  | case2 rest ih =>
    rw [splitParas.eq_2, joinParas_cons [] (splitParas rest) (splitParas_ne_nil rest),
        List.nil_append, ih]
  | case3 c rest h ih =>
    rw [splitParas.eq_3 c rest h, joinParas_consHead c _ (splitParas_ne_nil rest), ih]

/-- Appending one paragraph appends one separator plus the paragraph. -/
theorem joinParas_snoc (l : List Str) (p : Str) (h : l ≠ []) :
    joinParas (l ++ [p]) = joinParas l ++ '\n' :: '\n' :: p := by
  induction l with
  | nil => exact absurd rfl h
  | cons x l ih =>
    cases l with
    | nil => rfl
    | cons y l' =>
      rw [List.cons_append, joinParas_cons x ((y :: l') ++ [p]) (by simp),
          joinParas_cons x (y :: l') (by simp), ih (by simp)]
      simp

/-- A separator inside a chunk and a chunk boundary contribute the same
characters to the join. -/
theorem joinParas_flush (cs : List Str) (x p : Str) (ps : List Str) :
    joinParas (cs ++ (x ++ '\n' :: '\n' :: p) :: ps)
      = joinParas (cs ++ x :: p :: ps) := by
  induction cs with
  | nil =>
    cases ps with
    | nil => rfl
    | cons q ps' =>
      rw [List.nil_append, List.nil_append,
          joinParas_cons (x ++ '\n' :: '\n' :: p) (q :: ps') (by simp),
          joinParas_cons x (p :: q :: ps') (by simp),
          joinParas_cons p (q :: ps') (by simp)]
      simp
  | cons c cs' ih =>
    rw [List.cons_append, List.cons_append,
        joinParas_cons c (cs' ++ (x ++ '\n' :: '\n' :: p) :: ps) (by simp),
        joinParas_cons c (cs' ++ x :: p :: ps) (by simp), ih]

/-- The flush branch of the accumulation loop. -/
theorem chunkStep_flush (maxCS : Nat) (cs cur : List Str) (len : Nat) (p : Str)
    (h : len + p.length > maxCS ∧ cur ≠ []) :
    chunkStep maxCS (cs, cur, len) p = (cs ++ [joinParas cur], [p], p.length) := by
  unfold chunkStep
  rw [if_pos h]

/-- The accumulate branch of the accumulation loop. -/
theorem chunkStep_acc (maxCS : Nat) (cs cur : List Str) (len : Nat) (p : Str)
    (h : ¬ (len + p.length > maxCS ∧ cur ≠ [])) :
    chunkStep maxCS (cs, cur, len) p = (cs, cur ++ [p], len + p.length + 2) := by
  unfold chunkStep
  rw [if_neg h]

/-- Loop invariant of `_split_into_chunks`: the running chunk list plus the
pending group join to the already-processed input, and the pending group is
never empty. -/
theorem chunkFold_inv (maxCS : Nat) (paras : List Str) :
    ∀ (cs cur : List Str) (len : Nat), cur ≠ [] →
      (paras.foldl (chunkStep maxCS) (cs, cur, len)).2.1 ≠ []
      ∧ joinParas ((paras.foldl (chunkStep maxCS) (cs, cur, len)).1
          ++ [joinParas (paras.foldl (chunkStep maxCS) (cs, cur, len)).2.1])
        = joinParas (cs ++ joinParas cur :: paras) := by
  induction paras with
  | nil =>
    intro cs cur len hcur
    exact ⟨hcur, rfl⟩
  | cons p ps ih =>
    intro cs cur len hcur
    rw [List.foldl_cons]
    by_cases hcond : len + p.length > maxCS ∧ cur ≠ []
    · -- flush: state becomes (cs ++ [joinParas cur], [p], p.length)
      rw [chunkStep_flush maxCS cs cur len p hcond]
      have h := ih (cs ++ [joinParas cur]) [p] p.length (by simp)
      refine ⟨h.1, ?_⟩
      rw [h.2]
      have hl : (cs ++ [joinParas cur]) ++ joinParas [p] :: ps
          = cs ++ joinParas cur :: p :: ps := by
        simp [joinParas]
      rw [hl]
    · -- accumulate: state becomes (cs, cur ++ [p], len + p.length + 2)
      rw [chunkStep_acc maxCS cs cur len p hcond]
      have h := ih cs (cur ++ [p]) (len + p.length + 2) (by simp)
      refine ⟨h.1, ?_⟩
      rw [h.2, joinParas_snoc cur p hcur, joinParas_flush]

/-- **C10 (confirmed).** The paragraph-aware splitter is lossless: joining
the chunks produced by `_split_into_chunks` with the two-character separator
`"\n\n"` reconstructs the input text exactly, for every input text (and in
fact for every chunk-size bound, in particular the default 3000) — each chunk
boundary consumes exactly one paragraph separator, the property the
merge-offset arithmetic depends on. -/
theorem c10_split_join_lossless : ∀ (maxChunkSize : Nat) (text : Str),
    joinParas (splitIntoChunks text maxChunkSize) = text := by
  intro maxCS text
  unfold splitIntoChunks
  by_cases hlen : text.length ≤ maxCS
  · rw [if_pos hlen]; rfl
  · rw [if_neg hlen]
    obtain ⟨p0, ps, hps⟩ : ∃ p0 ps, splitParas text = p0 :: ps := by
      cases h : splitParas text with
      | nil => exact absurd h (splitParas_ne_nil text)
      | cons a l => exact ⟨a, l, rfl⟩
    rw [hps]
    dsimp only
    rw [List.foldl_cons]
    rw [chunkStep_acc maxCS [] [] 0 p0 (by simp)]
    simp only [List.nil_append]
    have hinv := chunkFold_inv maxCS ps [] [p0] (0 + p0.length + 2) (by simp)
    rw [if_pos hinv.1, hinv.2]
    have hl : ([] : List Str) ++ joinParas [p0] :: ps = p0 :: ps := by simp [joinParas]
    rw [hl, ← hps, splitJoin]

/-- The merge loop appends, for each chunk result in `enumerate` order, its
offset-adjusted changes (failed entries contribute nothing). -/
theorem mergeStep_foldl_changes (offsets : List Nat)
    (l : List (Nat × Except String DiffResponse))
    (acc : List ChangeItem × Nat × SemanticChangeLevel) :
    (l.foldl (mergeStep offsets) acc).1
      = acc.1 ++ (l.map (fun p =>
          match p.2 with
          | Except.ok r => r.changes.map (adjustChange (offsets.getD p.1 0))
          | Except.error _ => [])).flatten := by
  induction l generalizing acc with
  | nil => simp
  | cons p l ih =>
    rw [List.foldl_cons, ih]
    cases hp : p.2 with
    | error e => simp [mergeStep, hp]
    | ok r => simp [mergeStep, hp]

/-- Closed form of the cumulative offset list. -/
theorem computeOffsetsAux_getD (cs : List Str) (acc : Nat) (i : Nat) (h : i < cs.length) :
    (computeOffsetsAux cs acc).getD i 0
      = acc + ((cs.take (i + 1)).map List.length).sum + 2 * (i + 1) := by
  induction cs generalizing acc i with
  | nil => simp at h
  | cons c rest ih =>
    cases i with
    | zero => simp [computeOffsetsAux]
    | succ j =>
      rw [computeOffsetsAux]
      have hj : j < rest.length := by simpa using h
      simp only [List.getD_cons_succ]
      rw [ih (acc + c.length + 2) j hj]
      simp [List.take_succ_cons]
      omega

/-- The `offsets` entry for position `i` equals the spec's chunk base:
the sum of the lengths of the prior original-text chunks plus 2 per
boundary. -/
theorem computeOffsets_getD (chunks : List Str) (i : Nat) (h : i < chunks.length) :
    (computeOffsets chunks).getD i 0 = chunkBase chunks i := by
  cases i with
  | zero => simp [computeOffsets, chunkBase]
  | succ j =>
    have hj : j < chunks.dropLast.length := by
      rw [List.length_dropLast]
      omega
    unfold computeOffsets
    rw [List.getD_cons_succ, computeOffsetsAux_getD chunks.dropLast 0 j hj]
    unfold chunkBase
    rw [List.dropLast_eq_take, List.take_take]
    have : min (j + 1) (chunks.length - 1) = j + 1 := by omega
    rw [this]
    omega

/-- `split` of a text without newlines is the whole text. -/
theorem splitParas_no_newline (s : Str) (h : '\n' ∉ s) : splitParas s = [s] := by
  induction s with
  | nil => rfl
  | cons c rest ih =>
    have hc : c ≠ '\n' := fun hc => h (hc ▸ List.mem_cons_self c rest)
    rw [splitParas.eq_3 c rest (fun rest1 hcn _ => hc hcn),
        ih (fun hm => h (List.mem_cons_of_mem c hm))]
    rfl

/-- The 4003-character paragraph contains no newline. -/
theorem newline_not_mem_x4003 : '\n' ∉ x4003 := by
  intro h
  rw [x4003] at h
  have := (List.eq_of_mem_replicate h)
  exact absurd this (by decide)

/-- The generated 4003-character paragraph contains no newline. -/
theorem newline_not_mem_y4003 : '\n' ∉ y4003 := by
  intro h
  rw [y4003] at h
  have := (List.eq_of_mem_replicate h)
  exact absurd this (by decide)

/-- Length of the original big paragraph. -/
theorem x4003_length : x4003.length = 4003 := by
  rw [x4003, List.length_replicate]

/-- Length of the generated big paragraph. -/
theorem y4003_length : y4003.length = 4003 := by
  rw [y4003, List.length_replicate]

/-- `c9orig` is 4005 characters, above both thresholds. -/
theorem c9orig_length : c9orig.length = 4005 := by
  rw [c9orig]
  simp [x4003_length]

/-- Splitting `c9orig` produces an *empty chunk at index 0* followed by the
big paragraph. -/
theorem c9split : splitIntoChunks c9orig 3000 = [[], x4003] := by
  unfold splitIntoChunks
  rw [if_neg (by rw [c9orig_length]; omega)]
  have hsp : splitParas c9orig = [[], x4003] := by
    show splitParas ('\n' :: '\n' :: x4003) = [[], x4003]
    rw [splitParas.eq_2, splitParas_no_newline x4003 newline_not_mem_x4003]
  rw [hsp]
  dsimp only
  rw [List.foldl_cons, chunkStep_acc 3000 [] [] 0 [] (by simp),
      List.foldl_cons,
      chunkStep_flush 3000 [] ([] ++ [([] : Str)]) (0 + List.length ([] : Str) + 2) x4003
        (by refine ⟨?_, by simp⟩; rw [x4003_length]; norm_num),
      List.foldl_nil]
  simp [joinParas]

/-- `c9gen` is 4005 characters. -/
theorem c9gen_length : c9gen.length = 4005 := by
  rw [c9gen]
  simp [y4003_length]

/-- Splitting `c9gen` likewise produces `["", y4003]`. -/
theorem c9genSplit : splitIntoChunks c9gen 3000 = [[], y4003] := by
  unfold splitIntoChunks
  rw [if_neg (by rw [c9gen_length]; omega)]
  have hsp : splitParas c9gen = [[], y4003] := by
    show splitParas ('\n' :: '\n' :: y4003) = [[], y4003]
    rw [splitParas.eq_2, splitParas_no_newline y4003 newline_not_mem_y4003]
  rw [hsp]
  dsimp only
  rw [List.foldl_cons, chunkStep_acc 3000 [] [] 0 [] (by simp),
      List.foldl_cons,
      chunkStep_flush 3000 [] ([] ++ [([] : Str)]) (0 + List.length ([] : Str) + 2) y4003
        (by refine ⟨?_, by simp⟩; rw [y4003_length]; norm_num),
      List.foldl_nil]
  simp [joinParas]

/-- The empty/empty pair at index 0 is skipped, so only one task is
dispatched — for chunk index 1. -/
theorem c9tasks : chunkTasks c9orig c9gen = [(1, x4003, y4003)] := by
  unfold chunkTasks
  rw [c9split, c9genSplit]
  rfl

/-- The chunk list handed to the merge. -/
theorem c9padded : paddedOriginalChunks c9orig c9gen = [[], x4003] := by
  unfold paddedOriginalChunks
  rw [c9split, c9genSplit]
  rfl


/-- Phase-1 slice of the original chunk. -/
theorem pySlice_x : pySlice x4003 0 1 = ['x'] := by
  unfold pySlice pyIndex
  rw [x4003_length]
  norm_num
  rw [x4003]
  rw [List.take_replicate]
  norm_num

/-- Phase-1 slice of the generated chunk. -/
theorem pySlice_y : pySlice y4003 0 1 = ['y'] := by
  unfold pySlice pyIndex
  rw [y4003_length]
  norm_num
  rw [y4003]
  rw [List.take_replicate]
  norm_num

/-- The claimed original-side span matches exactly. -/
theorem vss_x : validateSingleSpan c9span_x x4003 = (true, false, c9span_x) := by
  unfold validateSingleSpan
  rw [if_neg (by decide)]
  dsimp only [c9span_x]
  rw [if_pos pySlice_x]

/-- The claimed generated-side span matches exactly. -/
theorem vss_y : validateSingleSpan c9span_y y4003 = (true, false, c9span_y) := by
  unfold validateSingleSpan
  rw [if_neg (by decide)]
  dsimp only [c9span_y]
  rw [if_pos pySlice_y]

/-- Reconciliation keeps the `c9raw` change unchanged. -/
theorem c9fixChange : fixChange c9change x4003 y4003 = some c9change := by
  unfold fixChange
  rw [show c9change.original_span = some c9span_x from rfl,
      show c9change.generated_span = some c9span_y from rfl]
  dsimp only
  rw [vss_x, vss_y]
  rfl

/-- Span fixing leaves `c9raw` unchanged. -/
theorem c9fix : validateAndFixSpans c9raw x4003 y4003 = c9raw := by
  show ({ summary := c9raw.summary,
          changes := some (List.filterMap (fun c => fixChange c x4003 y4003) [c9change]) }
        : RawResponse) = c9raw
  rw [List.filterMap_cons]
  rw [c9fixChange]
  rfl

/-- Validation of `c9raw` succeeds. -/
theorem c9build : validateAndBuildResponse c9raw = Except.ok c9chunkResp := by decide

/-- The chunk analysis of the single dispatched task. -/
theorem c9chunk : analyzeSingleChunk c9env 1 x4003 y4003 = c9chunkResp := by
  unfold analyzeSingleChunk
  rw [show c9env.chunkCached 1 = none from rfl,
      show c9env.chunkOracle 1 = OracleOutcome.parsed c9raw from rfl]
  dsimp only
  rw [c9fix, c9build]

/-- The merged result of the `c9orig`/`c9gen` comparison leaves the change's
original-span offset at 0: the change from chunk index 1 sits at position 0
of `chunk_results`, so it is shifted by `offsets[0] = 0`, not by chunk 1's
base. -/
theorem c9merged :
    (analyzeWithChunking c9env c9orig c9gen).1.changes.map (fun c => c.original_span.start)
      = [0] := by
  have h : analyzeWithChunking c9env c9orig c9gen
      = (mergeChunkResults [Except.ok (analyzeSingleChunk c9env 1 x4003 y4003)] [[], x4003],
         ([(1, x4003, y4003)].filter
           (fun t : Nat × Str × Str => (c9env.chunkCached t.1).isNone)).length) := by
    unfold analyzeWithChunking
    rw [c9tasks, c9padded]
    rfl
  rw [h, c9chunk]
  decide

/-- **C9 (amended).** In the merged result, the changes of the `k`-th entry
of `chunk_results` are shifted by `offsets[k]` (0 beyond the list), and for
`k < len(original_chunks)` that offset equals the claimed base — the sum of
the lengths of original-text chunks `0..k-1` plus 2 characters per prior
boundary; in particular, for original chunks `["AAAA","BBBB"]` a change at
chunk-local offset 1 in chunk index 1 appears at global offset 7.  The entry
position `k` coincides with the text-chunk index only when no preceding
empty/empty chunk pair was skipped by `_analyze_with_chunking`; when one is
skipped, a later chunk's changes are shifted by an earlier chunk's base (see
the counterexample). -/
theorem c9_merge_offsets_amended :
    (∀ (chunkResults : List (Except String DiffResponse)) (originalChunks : List Str),
      (mergeChunkResults chunkResults originalChunks).changes
        = (chunkResults.enum.map (fun p =>
            match p.2 with
            | Except.ok r => r.changes.map (adjustChange ((computeOffsets originalChunks).getD p.1 0))
            | Except.error _ => [])).flatten)
    ∧ (∀ (originalChunks : List Str) (i : Nat), i < originalChunks.length →
        (computeOffsets originalChunks).getD i 0 = chunkBase originalChunks i)
    ∧ ((mergeChunkResults demoResults demoChunks).changes.map (fun c => c.original_span.start)
          = [7]
        ∧ chunkBase demoChunks 1 = 6) := by
  refine ⟨?_, ?_, by decide, by decide⟩
  · intro chunkResults originalChunks
    unfold mergeChunkResults
    dsimp only
    rw [mergeStep_foldl_changes]
    rw [List.nil_append]
  · intro originalChunks i h
    exact computeOffsets_getD originalChunks i h

/-- **C9 (amended) witness**: the spec's `["AAAA","BBBB"]` example —
the offset base of chunk 1 is 6 and the merge shifts its changes by it. -/
theorem c9_merge_offsets_amended_witness :
    (1 < demoChunks.length ∧ (computeOffsets demoChunks).getD 1 0 = chunkBase demoChunks 1)
    ∧ (mergeChunkResults demoResults demoChunks).changes
        = (demoResults.enum.map (fun p =>
            match p.2 with
            | Except.ok r => r.changes.map (adjustChange ((computeOffsets demoChunks).getD p.1 0))
            | Except.error _ => [])).flatten := by
  exact ⟨⟨by decide, c9_merge_offsets_amended.2.1 demoChunks 1 (by decide)⟩,
         c9_merge_offsets_amended.1 demoResults demoChunks⟩

/-- **C9 counterexample.** Both texts start with a paragraph separator, so
both split into `["", <big paragraph>]`; the empty/empty pair at index 0 is
skipped when tasks are built, and the merge then enumerates `chunk_results`
positionally: the change reported by chunk *index 1* (at chunk-local offset
0) is shifted by `offsets[0] = 0` instead of by chunk 1's base
`len("") + 2 = 2`.  The claim's universally quantified offset law fails on
this chunked comparison. -/
theorem c9_counterexample :
    (analyzeWithChunking c9env c9orig c9gen).1.changes.map (fun c => c.original_span.start)
      = [0]
    ∧ splitIntoChunks c9orig 3000 = [[], x4003]
    ∧ chunkBase (splitIntoChunks c9orig 3000) 1 = 2
    ∧ ([(0 : Int)] : List Int) ≠ [((0 : Int) + ((2 : Nat) : Int))] := by
  refine ⟨c9merged, c9split, ?_, by decide⟩
  rw [c9split]
  decide

/-- `split` peels one newline-free paragraph off a separator. -/
theorem splitParas_append_sep (a rest : Str) (h : '\n' ∉ a) :
    splitParas (a ++ '\n' :: '\n' :: rest) = a :: splitParas rest := by
  induction a with
  | nil => rw [List.nil_append, splitParas.eq_2]
  | cons c a' ih =>
    have hc : c ≠ '\n' := fun hcn => h (hcn ▸ List.mem_cons_self c a')
    rw [List.cons_append,
        splitParas.eq_3 c (a' ++ '\n' :: '\n' :: rest) (fun rest1 hcn _ => hc hcn),
        ih (fun hm => h (List.mem_cons_of_mem c hm))]
    rfl

/-- Length of a `c4orig` paragraph. -/
theorem xPara_length : xPara.length = 2999 := by
  rw [xPara, List.length_replicate]

/-- Length of a `c4gen` paragraph. -/
theorem yPara_length : yPara.length = 2999 := by
  rw [yPara, List.length_replicate]

/-- `xPara` contains no newline. -/
theorem newline_not_mem_xPara : '\n' ∉ xPara := by
  intro h
  rw [xPara] at h
  exact absurd (List.eq_of_mem_replicate h) (by decide)

/-- `yPara` contains no newline. -/
theorem newline_not_mem_yPara : '\n' ∉ yPara := by
  intro h
  rw [yPara] at h
  exact absurd (List.eq_of_mem_replicate h) (by decide)

/-- `c4orig` is 9001 characters, above both thresholds. -/
theorem c4orig_length : c4orig.length = 9001 := by
  rw [c4orig]
  simp [xPara_length]

/-- `c4gen` is 9001 characters. -/
theorem c4gen_length : c4gen.length = 9001 := by
  rw [c4gen]
  simp [yPara_length]

/-- `c4orig` splits into its three paragraphs. -/
theorem c4origParas : splitParas c4orig = [xPara, xPara, xPara] := by
  rw [c4orig, splitParas_append_sep xPara _ newline_not_mem_xPara,
      splitParas_append_sep xPara _ newline_not_mem_xPara,
      splitParas_no_newline xPara newline_not_mem_xPara]

/-- `c4gen` splits into its three paragraphs. -/
theorem c4genParas : splitParas c4gen = [yPara, yPara, yPara] := by
  rw [c4gen, splitParas_append_sep yPara _ newline_not_mem_yPara,
      splitParas_append_sep yPara _ newline_not_mem_yPara,
      splitParas_no_newline yPara newline_not_mem_yPara]

/-- `_split_into_chunks` produces exactly three chunks for `c4orig`. -/
theorem c4split : splitIntoChunks c4orig 3000 = [xPara, xPara, xPara] := by
  unfold splitIntoChunks
  rw [if_neg (by rw [c4orig_length]; omega), c4origParas]
  dsimp only
  rw [List.foldl_cons,
      chunkStep_acc 3000 [] [] 0 xPara (by rw [xPara_length]; simp),
      List.foldl_cons,
      chunkStep_flush 3000 [] ([] ++ [xPara]) (0 + xPara.length + 2) xPara
        (by rw [xPara_length]; refine ⟨by omega, by simp⟩),
      List.foldl_cons,
      chunkStep_flush 3000 ([] ++ [joinParas ([] ++ [xPara])]) [xPara] xPara.length xPara
        (by rw [xPara_length]; refine ⟨by omega, by simp⟩),
      List.foldl_nil]
  simp [joinParas]

/-- `_split_into_chunks` produces exactly three chunks for `c4gen`. -/
theorem c4genSplit : splitIntoChunks c4gen 3000 = [yPara, yPara, yPara] := by
  unfold splitIntoChunks
  rw [if_neg (by rw [c4gen_length]; omega), c4genParas]
  dsimp only
  rw [List.foldl_cons,
      chunkStep_acc 3000 [] [] 0 yPara (by rw [yPara_length]; simp),
      List.foldl_cons,
      chunkStep_flush 3000 [] ([] ++ [yPara]) (0 + yPara.length + 2) yPara
        (by rw [yPara_length]; refine ⟨by omega, by simp⟩),
      List.foldl_cons,
      chunkStep_flush 3000 ([] ++ [joinParas ([] ++ [yPara])]) [yPara] yPara.length yPara
        (by rw [yPara_length]; refine ⟨by omega, by simp⟩),
      List.foldl_nil]
  simp [joinParas]

/-- All three chunk pairs are dispatched. -/
theorem c4tasks : chunkTasks c4orig c4gen
    = [(0, xPara, yPara), (1, xPara, yPara), (2, xPara, yPara)] := by
  unfold chunkTasks
  rw [c4split, c4genSplit]
  rfl

/-- The chunk list handed to the merge. -/
theorem c4padded : paddedOriginalChunks c4orig c4gen = [xPara, xPara, xPara] := by
  unfold paddedOriginalChunks
  rw [c4split, c4genSplit]
  rfl

/-- Chunk 0 yields the risk-60 verdict (`is_safe` stays false). -/
theorem c4chunk0 : analyzeSingleChunk c4env 0 xPara yPara = riskResp60 := rfl

/-- Chunk 1 yields the risk-60 verdict. -/
theorem c4chunk1 : analyzeSingleChunk c4env 1 xPara yPara = riskResp60 := rfl

/-- Chunk 2's oracle call failed permanently, so `_analyze_single_chunk`
absorbs the exception into the neutral zero response. -/
theorem c4chunk2 : analyzeSingleChunk c4env 2 xPara yPara = zeroResponse := rfl

/-- The merged risk score of the `c4orig`/`c4gen` comparison is
`(60 + 60 + 0) // 3 = 40`, not `(60 + 60) // 2 = 60`. -/
theorem c4merged :
    (analyzeWithChunking c4env c4orig c4gen).1.summary.risk_score = 40 := by
  have h : analyzeWithChunking c4env c4orig c4gen
      = (mergeChunkResults
          [Except.ok (analyzeSingleChunk c4env 0 xPara yPara),
           Except.ok (analyzeSingleChunk c4env 1 xPara yPara),
           Except.ok (analyzeSingleChunk c4env 2 xPara yPara)]
          [xPara, xPara, xPara],
         ([(0, xPara, yPara), (1, xPara, yPara), (2, xPara, yPara)].filter
           (fun t : Nat × Str × Str => (c4env.chunkCached t.1).isNone)).length) := by
    unfold analyzeWithChunking
    rw [c4tasks, c4padded]
    rfl
  rw [h, c4chunk0, c4chunk1, c4chunk2]
  decide

/-- **C4 (amended).** A chunk whose oracle call fails permanently (rate
limit, timeout or API error surviving the 3 retry attempts) is replaced by
the neutral placeholder `{is_safe: true, risk_score: 0, NONE, no changes}`
by `_analyze_single_chunk`; the merge then still contains all reconciled
changes from the other two chunks (offset-shifted), but the placeholder
counts as a valid chunk, so the merged risk score is the integer-truncated
average over all *three* chunks with the failed chunk contributing zero:
`(r0 + r1 + 0) // 3`, not `(r0 + r1) // 2`. -/
theorem c4_partial_failure_amended :
    (∀ (env : Env) (i : Nat) (origChunk genChunk : Str),
      env.chunkCached i = none →
      oracleFailedPermanently (env.chunkOracle i) = true →
      analyzeSingleChunk env i origChunk genChunk = zeroResponse)
    ∧ (∀ (r0 r1 : DiffResponse) (originalChunks : List Str),
      (mergeChunkResults [Except.ok r0, Except.ok r1, Except.ok zeroResponse]
          originalChunks).changes
        = r0.changes.map (adjustChange ((computeOffsets originalChunks).getD 0 0))
          ++ r1.changes.map (adjustChange ((computeOffsets originalChunks).getD 1 0))
      ∧ (mergeChunkResults [Except.ok r0, Except.ok r1, Except.ok zeroResponse]
          originalChunks).summary.risk_score
        = min 100 ((r0.summary.risk_score + r1.summary.risk_score) / 3)) := by
  constructor
  · intro env i origChunk genChunk hc hfail
    unfold analyzeSingleChunk
    rw [hc]
    cases ho : env.chunkOracle i <;> rw [ho] at hfail <;>
      first
        | rfl
        | exact Bool.noConfusion hfail
  · intro r0 r1 originalChunks
    constructor
    · unfold mergeChunkResults
      dsimp only
      rw [mergeStep_foldl_changes,
          show ([Except.ok r0, Except.ok r1,
            (Except.ok zeroResponse : Except String DiffResponse)]).enum
          = [(0, Except.ok r0), (1, Except.ok r1), (2, Except.ok zeroResponse)] from rfl]
      simp [zeroResponse, List.flatten]
    · unfold mergeChunkResults
      dsimp only
      rw [show ([Except.ok r0, Except.ok r1,
            (Except.ok zeroResponse : Except String DiffResponse)]).enum
          = [(0, Except.ok r0), (1, Except.ok r1), (2, Except.ok zeroResponse)] from rfl]
      simp only [List.foldl_cons, List.foldl_nil, mergeStep, List.filter, zeroResponse]
      norm_num

/-- **C4 (amended) witness**: the failing chunk of the concrete three-chunk
run, and the merge of two risk-60 verdicts with the placeholder —
`risk = (60+60)//3 = 40`. -/
theorem c4_partial_failure_amended_witness :
    (c4env.chunkCached 2 = none ∧ oracleFailedPermanently (c4env.chunkOracle 2) = true
      ∧ analyzeSingleChunk c4env 2 xPara yPara = zeroResponse)
    ∧ ((mergeChunkResults [Except.ok riskResp60, Except.ok riskResp60, Except.ok zeroResponse]
          [("a").data]).changes
        = riskResp60.changes.map (adjustChange ((computeOffsets [("a").data]).getD 0 0))
          ++ riskResp60.changes.map (adjustChange ((computeOffsets [("a").data]).getD 1 0))
      ∧ (mergeChunkResults [Except.ok riskResp60, Except.ok riskResp60, Except.ok zeroResponse]
          [("a").data]).summary.risk_score
        = min 100 ((riskResp60.summary.risk_score + riskResp60.summary.risk_score) / 3)) := by
  exact ⟨⟨rfl, rfl, c4_partial_failure_amended.1 c4env 2 xPara yPara rfl rfl⟩,
         c4_partial_failure_amended.2 riskResp60 riskResp60 [("a").data]⟩

/-- **C4 counterexample.** In the three-chunk comparison `c4orig`/`c4gen`
where exactly chunk 2's oracle call fails permanently and chunks 0 and 1
report risk 60, the merged risk score is 40 = `(60+60+0) // 3` — the failed
chunk is *not* excluded from the average (the claim requires
`(60+60) // 2 = 60`).  The placeholder substitution in
`_analyze_single_chunk` means `_merge_chunk_results` never sees an
`Exception` entry, so its exclusion logic is dead code. -/
theorem c4_counterexample :
    (analyzeWithChunking c4env c4orig c4gen).1.summary.risk_score = 40
    ∧ oracleFailedPermanently (c4env.chunkOracle 2) = true
    ∧ (60 + 60) / 2 = 60
    ∧ (40 : Nat) ≠ 60 := by
  exact ⟨c4merged, rfl, by decide, by decide⟩
